import Mathlib

/-!
Shallow embedding of the greeting-operator provisioner
(cmd/greeting-operator/main.go).

The program builds three Kubernetes resources (Namespace, Deployment,
Service) from an immutable configuration and submits each with a
create-then-update-on-already-exists policy.  We embed:

  * the resource record types actually populated by the Go code
    (only the fields the code sets);
  * the Kubernetes API constants the code references;
  * the pure resource builders (the struct literals inside
    createNamespace, createDeployment, createService);
  * the effectful ensure-operations and Start, parametrised over an
    abstract client so that mock clients and a concrete cluster-state
    client can both instantiate them.  Each operation also returns the
    list of API calls it issued, in order.

Machine integers: the Go code uses int (flag values, ports) and int32
(replica count) with values far from any overflow, so they are embedded
as Int; uint (replicas flag) is embedded as Nat.
-/

/-- Kubernetes API constant api.NamespaceDefault. -/
def NamespaceDefault : String := "default"

/-- Kubernetes API constant api.ProtocolTCP. -/
def ProtocolTCP : String := "TCP"

/-- Kubernetes API constant api.RestartPolicyAlways. -/
def RestartPolicyAlways : String := "Always"

/-- Kubernetes API constant api.PullNever. -/
def PullNever : String := "Never"

/-- Kubernetes API constant api.ServiceTypeLoadBalancer. -/
def ServiceTypeLoadBalancer : String := "LoadBalancer"

/-- meta.ObjectMeta, restricted to the fields the program sets. -/
structure ObjectMeta where
  name : String
  labels : List (String × String) := []
  deriving DecidableEq, Repr

/-- api.Namespace as built by createNamespace. -/
structure Namespace where
  objectMeta : ObjectMeta
  deriving DecidableEq, Repr

/-- api.ContainerPort. -/
structure ContainerPort where
  name : String
  protocol : String
  containerPort : Int
  deriving DecidableEq, Repr

/-- api.EnvVar. -/
structure EnvVar where
  name : String
  value : String
  deriving DecidableEq, Repr

/-- api.HTTPGetAction. -/
structure HTTPGetAction where
  path : String
  port : Int
  deriving DecidableEq, Repr

/-- api.ProbeHandler, restricted to the HTTPGet member the program sets. -/
structure ProbeHandler where
  httpGet : Option HTTPGetAction := none
  deriving DecidableEq, Repr

/-- api.Probe. -/
structure Probe where
  probeHandler : ProbeHandler
  timeoutSeconds : Int := 0
  deriving DecidableEq, Repr

/-- api.Container, restricted to the fields the program sets. -/
structure Container where
  name : String
  image : String
  ports : List ContainerPort := []
  env : List EnvVar := []
  livenessProbe : Option Probe := none
  imagePullPolicy : String := ""
  deriving DecidableEq, Repr

/-- api.PodSpec, restricted to the fields the program sets. -/
structure PodSpec where
  containers : List Container
  restartPolicy : String := ""
  deriving DecidableEq, Repr

/-- api.PodTemplateSpec. -/
structure PodTemplateSpec where
  objectMeta : ObjectMeta
  spec : PodSpec
  deriving DecidableEq, Repr

/-- meta.LabelSelector, restricted to MatchLabels. -/
structure LabelSelector where
  matchLabels : List (String × String)
  deriving DecidableEq, Repr

/-- apps.DeploymentSpec, restricted to the fields the program sets.
The Go field is a pointer to int32; the program always allocates it. -/
structure DeploymentSpec where
  replicas : Int
  selector : LabelSelector
  template : PodTemplateSpec
  deriving DecidableEq, Repr

/-- apps.Deployment. -/
structure Deployment where
  objectMeta : ObjectMeta
  spec : DeploymentSpec
  deriving DecidableEq, Repr

/-- api.ServicePort; TargetPort is intstr built with intstr.FromInt. -/
structure ServicePort where
  name : String
  protocol : String
  port : Int
  targetPort : Int
  deriving DecidableEq, Repr

/-- api.ServiceSpec, restricted to the fields the program sets. -/
structure ServiceSpec where
  selector : List (String × String)
  type : String
  ports : List ServicePort
  deriving DecidableEq, Repr

/-- api.Service. -/
structure Service where
  objectMeta : ObjectMeta
  spec : ServiceSpec
  deriving DecidableEq, Repr

/-- GreetingOperatorConfig (main.go lines 87 to 98).  Field defaults are
the Go zero values: a Go struct literal that omits a field leaves it at
its zero value, which the embedding reproduces through these defaults. -/
structure GreetingOperatorConfig where
  Image : String := ""
  Port : Int := 0
  Namespace : String := ""
  Replicas : Nat := 0
  Name : String := ""
  deriving DecidableEq, Repr

/-- GreetingOperator (main.go lines 100 to 108), without the client
handle, which is threaded separately in this embedding.  The Go field
named after the target namespace is rendered namespaceName because its
Go spelling is a Lean keyword. -/
structure GreetingOperator where
  image : String
  port : Int
  namespaceName : String
  replicas : Nat
  name : String
  deriving DecidableEq, Repr

/-- The resolved command-line flag values that run reads from the cli
context: String("image"), Int("port"), String("namespace"),
Uint("replicas"), String("name"). -/
structure CLIContext where
  image : String
  port : Int
  namespaceName : String
  replicas : Nat
  name : String
  deriving DecidableEq, Repr

/-- The GreetingOperatorConfig literal built by run (main.go lines 67
to 72).  The Go literal sets Image, Namespace, Replicas and Name and
omits Port, so Port stays at its zero value. -/
def runConfig (cliCtx : CLIContext) : GreetingOperatorConfig :=
  { Image := cliCtx.image
    Namespace := cliCtx.namespaceName
    Replicas := cliCtx.replicas
    Name := cliCtx.name }

/-- NewGreetingOperator (main.go lines 111 to 132), restricted to the
field copies; the in-cluster client construction is connection plumbing
outside the embedded state. -/
def NewGreetingOperator (config : GreetingOperatorConfig) : GreetingOperator :=
  { image := config.Image
    port := config.Port
    namespaceName := config.Namespace
    replicas := config.Replicas
    name := config.Name }

/-- The api.Namespace literal built inside createNamespace (main.go
lines 154 to 158). -/
def GreetingOperator.namespaceResource (o : GreetingOperator) : Namespace :=
  { objectMeta := { name := o.namespaceName } }

/-- The apps.Deployment literal built inside createDeployment (main.go
lines 174 to 217): objMeta, podTpl and greetingDeployment, with the
local variable replicas fixed at 1 exactly as in the source. -/
def GreetingOperator.greetingDeployment (o : GreetingOperator) : Deployment :=
  let objMeta : ObjectMeta :=
    { name := "greeting"
      labels := [("app", "greeting")] }
  let podTpl : PodTemplateSpec :=
    { objectMeta := objMeta
      spec :=
        { containers :=
            [{ name := "greeting"
               image := o.image
               ports :=
                 [{ name := "http"
                    protocol := ProtocolTCP
                    containerPort := 80 }]
               env :=
                 [{ name := "NAME"
                    value := o.name }]
               livenessProbe := some
                 { probeHandler :=
                     { httpGet := some
                         { path := "/health"
                           port := 80 } }
                   timeoutSeconds := 3 }
               imagePullPolicy := PullNever }]
          restartPolicy := RestartPolicyAlways } }
  let replicas : Int := 1
  { objectMeta := objMeta
    spec :=
      { replicas := replicas
        selector := { matchLabels := [("app", "greeting")] }
        template := podTpl } }

/-- The api.Service literal built inside createService (main.go lines
246 to 258). -/
def GreetingOperator.serviceResource (o : GreetingOperator) : Service :=
  { objectMeta := { name := "greeting" }
    spec :=
      { selector := [("app", "greeting")]
        type := ServiceTypeLoadBalancer
        ports :=
          [{ name := "http"
             protocol := ProtocolTCP
             port := 80
             targetPort := o.port }] } }

/-- Error classification mirroring k8s.io/apimachinery errors as the
program consumes them: kerror.IsAlreadyExists distinguishes the
already-exists condition from every other error. -/
inductive KError where
  | alreadyExists : KError
  | other : String → KError
  deriving DecidableEq, Repr

/-- kerror.IsAlreadyExists. -/
def KError.isAlreadyExists : KError → Bool
  | KError.alreadyExists => true
  | KError.other _ => false

/-- Rendering of the error used when the program wraps it with
fmt.Errorf. -/
def KError.msg : KError → String
  | KError.alreadyExists => "already exists"
  | KError.other m => m

/-- One API call issued by the operator, recorded in order of issue.
Deployment and Service calls carry the namespace of the resource client
they were issued through. -/
inductive APICall where
  | createNamespaceCall : Namespace → APICall
  | createDeploymentCall : String → Deployment → APICall
  | updateDeploymentCall : String → Deployment → APICall
  | createServiceCall : String → Service → APICall
  | updateServiceCall : String → Service → APICall
  deriving DecidableEq, Repr

/-- Calls addressed to the deployment endpoints. -/
def APICall.isDeploymentCall : APICall → Bool
  | APICall.createDeploymentCall _ _ => true
  | APICall.updateDeploymentCall _ _ => true
  | _ => false

/-- Calls addressed to the service endpoints. -/
def APICall.isServiceCall : APICall → Bool
  | APICall.createServiceCall _ _ => true
  | APICall.updateServiceCall _ _ => true
  | _ => false

/-- Update calls of either resource kind. -/
def APICall.isUpdateCall : APICall → Bool
  | APICall.updateDeploymentCall _ _ => true
  | APICall.updateServiceCall _ _ => true
  | _ => false

/-- The cluster API surface the program consumes, as a state machine
over an abstract client state σ: each operation returns the call result
and the next state.  Instantiated below by mock clients and by a
cluster-state client. -/
structure KClient (σ : Type) where
  createNamespace : Namespace → σ → Except KError Unit × σ
  createDeployment : String → Deployment → σ → Except KError Unit × σ
  updateDeployment : String → Deployment → σ → Except KError Unit × σ
  createService : String → Service → σ → Except KError Unit × σ
  updateService : String → Service → σ → Except KError Unit × σ

/-- createNamespace (main.go lines 151 to 169): submit the namespace;
an already-exists error is swallowed, any other error is wrapped and
returned. -/
def GreetingOperator.createNamespace {σ : Type} (o : GreetingOperator)
    (c : KClient σ) (s : σ) : Except String Unit × σ × List APICall :=
  let res := o.namespaceResource
  let step := c.createNamespace res s
  let trace := [APICall.createNamespaceCall res]
  match step.1 with
  | Except.error err =>
    if err.isAlreadyExists then (Except.ok (), step.2, trace)
    else (Except.error ("create namespace: " ++ err.msg), step.2, trace)
  | Except.ok _ => (Except.ok (), step.2, trace)

/-- createDeployment (main.go lines 171 to 241): submit the built
deployment; on already-exists fall back to a single update with the same
resource; any other create error, and any update error, is wrapped and
returned. -/
def GreetingOperator.createDeployment {σ : Type} (o : GreetingOperator)
    (c : KClient σ) (s : σ) : Except String Unit × σ × List APICall :=
  let d := o.greetingDeployment
  let step := c.createDeployment o.namespaceName d s
  let trace := [APICall.createDeploymentCall o.namespaceName d]
  match step.1 with
  | Except.error err =>
    if err.isAlreadyExists then
      let step2 := c.updateDeployment o.namespaceName d step.2
      let trace2 := trace ++ [APICall.updateDeploymentCall o.namespaceName d]
      match step2.1 with
      | Except.error err2 =>
        (Except.error ("update deployment: " ++ err2.msg), step2.2, trace2)
      | Except.ok _ => (Except.ok (), step2.2, trace2)
    else (Except.error ("create deployment: " ++ err.msg), step.2, trace)
  | Except.ok _ => (Except.ok (), step.2, trace)

/-- createService (main.go lines 243 to 280): same create-then-update
policy as createDeployment, applied to the built service. -/
def GreetingOperator.createService {σ : Type} (o : GreetingOperator)
    (c : KClient σ) (s : σ) : Except String Unit × σ × List APICall :=
  let svc := o.serviceResource
  let step := c.createService o.namespaceName svc s
  let trace := [APICall.createServiceCall o.namespaceName svc]
  match step.1 with
  | Except.error err =>
    if err.isAlreadyExists then
      let step2 := c.updateService o.namespaceName svc step.2
      let trace2 := trace ++ [APICall.updateServiceCall o.namespaceName svc]
      match step2.1 with
      | Except.error err2 =>
        (Except.error ("update service: " ++ err2.msg), step2.2, trace2)
      | Except.ok _ => (Except.ok (), step2.2, trace2)
    else (Except.error ("create service: " ++ err.msg), step.2, trace)
  | Except.ok _ => (Except.ok (), step.2, trace)

/-- Start (main.go lines 135 to 149): namespace, then deployment, then
service, stopping at the first error. -/
def GreetingOperator.Start {σ : Type} (o : GreetingOperator)
    (c : KClient σ) (s : σ) : Except String Unit × σ × List APICall :=
  let r1 := o.createNamespace c s
  match r1.1 with
  | Except.error e => (Except.error e, r1.2.1, r1.2.2)
  | Except.ok _ =>
    let r2 := o.createDeployment c r1.2.1
    match r2.1 with
    | Except.error e => (Except.error e, r2.2.1, r1.2.2 ++ r2.2.2)
    | Except.ok _ =>
      let r3 := o.createService c r2.2.1
      (r3.1, r3.2.1, r1.2.2 ++ r2.2.2 ++ r3.2.2)

/-- Observable cluster state: the namespaces, deployments and services
present, the latter two keyed by (namespace, resource name). -/
structure Cluster where
  namespaces : List String
  deployments : List ((String × String) × Deployment)
  services : List ((String × String) × Service)
  deriving DecidableEq, Repr

/-- An empty cluster. -/
def Cluster.empty : Cluster :=
  { namespaces := [], deployments := [], services := [] }

/-- Replacement of the resource stored at a key in a keyed resource
list, used by the cluster-state client to model an update call. -/
def storeReplace {α : Type} (key : String × String) (v : α)
    (l : List ((String × String) × α)) : List ((String × String) × α) :=
  l.map (fun kv => if kv.1 == key then (key, v) else kv)

/-- A client backed by an explicit cluster state with Kubernetes
semantics: create fails with already-exists when the resource is
present, update replaces the stored resource and fails with a not-found
error when it is absent. -/
def clusterClient : KClient Cluster where
  createNamespace n s :=
    if s.namespaces.contains n.objectMeta.name then
      (Except.error KError.alreadyExists, s)
    else
      (Except.ok (), { s with namespaces := s.namespaces ++ [n.objectMeta.name] })
  createDeployment ns d s :=
    if (s.deployments.lookup (ns, d.objectMeta.name)).isSome then
      (Except.error KError.alreadyExists, s)
    else
      (Except.ok (),
        { s with deployments := s.deployments ++ [((ns, d.objectMeta.name), d)] })
  updateDeployment ns d s :=
    if (s.deployments.lookup (ns, d.objectMeta.name)).isSome then
      (Except.ok (),
        { s with deployments :=
            storeReplace (ns, d.objectMeta.name) d s.deployments })
    else (Except.error (KError.other ("not found")), s)
  createService ns svc s :=
    if (s.services.lookup (ns, svc.objectMeta.name)).isSome then
      (Except.error KError.alreadyExists, s)
    else
      (Except.ok (),
        { s with services := s.services ++ [((ns, svc.objectMeta.name), svc)] })
  updateService ns svc s :=
    if (s.services.lookup (ns, svc.objectMeta.name)).isSome then
      (Except.ok (),
        { s with services :=
            storeReplace (ns, svc.objectMeta.name) svc s.services })
    else (Except.error (KError.other ("not found")), s)

/-- Mock client whose deployment create call always reports
already-exists, for the conflict-fallback property (spec section 8). -/
def mockDeploymentExistsClient : KClient Unit where
  createNamespace _ s := (Except.ok (), s)
  createDeployment _ _ s := (Except.error KError.alreadyExists, s)
  updateDeployment _ _ s := (Except.ok (), s)
  createService _ _ s := (Except.ok (), s)
  updateService _ _ s := (Except.ok (), s)

/-- Mock client whose namespace create call fails fatally, for the
ordering property (spec section 8). -/
def mockNamespaceFailClient : KClient Unit where
  createNamespace _ s := (Except.error (KError.other ("boom")), s)
  createDeployment _ _ s := (Except.ok (), s)
  updateDeployment _ _ s := (Except.ok (), s)
  createService _ _ s := (Except.ok (), s)
  updateService _ _ s := (Except.ok (), s)

/-- Mock client whose deployment create call fails with an error other
than already-exists. -/
def mockDeploymentFailClient : KClient Unit where
  createNamespace _ s := (Except.ok (), s)
  createDeployment _ _ s := (Except.error (KError.other ("boom")), s)
  updateDeployment _ _ s := (Except.ok (), s)
  createService _ _ s := (Except.ok (), s)
  updateService _ _ s := (Except.ok (), s)

/-- The scenario configuration of spec section 8 with replicas 3: the
operator as built from image greeting:latest, port 80, namespace
default, replicas 3, name Foo Bar. -/
def opReplicas3 : GreetingOperator :=
  { image := "greeting:latest"
    port := 80
    namespaceName := NamespaceDefault
    replicas := 3
    name := "Foo Bar" }

/-- The scenario configuration of spec section 8: image greeting:latest,
port 80, namespace default, replicas 1, name Foo Bar. -/
def opScenario : GreetingOperator :=
  { image := "greeting:latest"
    port := 80
    namespaceName := NamespaceDefault
    replicas := 1
    name := "Foo Bar" }

/-- The cluster produced by the scenario run of spec section 8: the
result of one full Start of opScenario against an empty cluster. -/
def scenarioCluster : Cluster :=
  (opScenario.Start clusterClient Cluster.empty).2.1

/-- C8: the Deployment built by createDeployment has its label selector
match-labels equal to its pod-template labels, both being exactly the
single binding of app to greeting. -/
theorem deployment_selector_matches_template_labels (o : GreetingOperator) :
    o.greetingDeployment.spec.selector.matchLabels
      = o.greetingDeployment.spec.template.objectMeta.labels ∧
    o.greetingDeployment.spec.selector.matchLabels = [("app", "greeting")] :=
  ⟨rfl, rfl⟩

/-- C9: the Deployment built by createDeployment is named greeting, has
exactly one container with the configured image, the NAME environment
variable carrying the configured display name, a liveness probe on HTTP
path /health, restart policy Always and image-pull policy Never. -/
theorem greetingDeployment_desired_state (o : GreetingOperator) :
    o.greetingDeployment.objectMeta.name = "greeting" ∧
    o.greetingDeployment.spec.template.spec.containers =
      [{ name := "greeting"
         image := o.image
         ports := [{ name := "http", protocol := ProtocolTCP, containerPort := 80 }]
         env := [{ name := "NAME", value := o.name }]
         livenessProbe := some
           { probeHandler := { httpGet := some { path := "/health", port := 80 } }
             timeoutSeconds := 3 }
         imagePullPolicy := PullNever }] ∧
    o.greetingDeployment.spec.template.spec.restartPolicy = RestartPolicyAlways :=
  ⟨rfl, rfl, rfl⟩

/-- C10: the Deployment built by createDeployment declares container
port 80 and liveness probe port 80 whatever the configured port is (the
whole Deployment is unchanged by the port), while the Service built by
createService maps its target port to the configured port. -/
theorem deployment_ports_fixed_service_target_port_configured
    (o : GreetingOperator) (p : Int) :
    o.greetingDeployment.spec.template.spec.containers.map
        (fun c => c.ports.map ContainerPort.containerPort) = [[80]] ∧
    o.greetingDeployment.spec.template.spec.containers.map
        (fun c => c.livenessProbe.map
          (fun pr => pr.probeHandler.httpGet.map HTTPGetAction.port))
      = [some (some 80)] ∧
    { o with port := p }.greetingDeployment = o.greetingDeployment ∧
    { o with port := p }.serviceResource.spec.ports.map ServicePort.targetPort
      = [p] :=
  ⟨rfl, rfl, rfl, rfl⟩

/-- C6: run builds the GreetingOperatorConfig without setting Port, so
whatever the port flag or PORT environment variable supplied, the
resulting operator has port 0 and the Service it builds targets port 0. -/
theorem run_config_omits_port (cliCtx : CLIContext) :
    (runConfig cliCtx).Port = 0 ∧
    (NewGreetingOperator (runConfig cliCtx)).port = 0 ∧
    (NewGreetingOperator (runConfig cliCtx)).serviceResource.spec.ports.map
        ServicePort.targetPort = [0] :=
  ⟨rfl, rfl, rfl⟩

/-- C1: re-running the provisioner with replicas 3 against the cluster
produced by the scenario run succeeds, but the stored Deployment keeps
replica count 1, because createDeployment hardcodes the local variable
replicas to 1 and ignores the configured count of 3. -/
theorem rerun_replicas3_keeps_replicas_one :
    (opReplicas3.Start clusterClient scenarioCluster).1 = Except.ok () ∧
    ((opReplicas3.Start clusterClient scenarioCluster).2.1.deployments.lookup
        (NamespaceDefault, "greeting")).map (fun d => d.spec.replicas)
      = some 1 ∧
    opReplicas3.replicas = 3 := by
  refine ⟨rfl, ?_, rfl⟩
  rfl

/-- C2: with a mock client whose deployment create call always reports
already-exists, createDeployment issues exactly one update call carrying
the built deployment, but that spec has replica count 1 while the
configuration asks for 3, so the update spec does not match the
configured replica count. -/
theorem conflict_fallback_update_replicas_mismatch :
    (opReplicas3.createDeployment mockDeploymentExistsClient ()).2.2.filter
        APICall.isUpdateCall
      = [APICall.updateDeploymentCall NamespaceDefault
          opReplicas3.greetingDeployment] ∧
    opReplicas3.greetingDeployment.spec.replicas = 1 ∧
    opReplicas3.replicas = 3 :=
  ⟨rfl, rfl, rfl⟩

/-- C5: the Service built by createService is named greeting, has the
app greeting selector, type load-balancer, and exactly one port named
http with external port 80 targeting the configured port; the create
call for it is issued against the configured namespace, and the
scenario configuration with port 80 maps port 80 to target port 80. -/
theorem serviceResource_desired_state {σ : Type} (o : GreetingOperator)
    (c : KClient σ) (s : σ) :
    o.serviceResource.objectMeta.name = "greeting" ∧
    o.serviceResource.spec.selector = [("app", "greeting")] ∧
    o.serviceResource.spec.type = ServiceTypeLoadBalancer ∧
    o.serviceResource.spec.ports =
      [{ name := "http", protocol := ProtocolTCP, port := 80,
         targetPort := o.port }] ∧
    (o.createService c s).2.2.head?
      = some (APICall.createServiceCall o.namespaceName o.serviceResource) ∧
    opScenario.serviceResource.spec.ports =
      [{ name := "http", protocol := ProtocolTCP, port := 80,
         targetPort := 80 }] := by
  refine ⟨rfl, rfl, rfl, rfl, ?_, rfl⟩
  cases h : (c.createService o.namespaceName o.serviceResource s).1 with
  | error err =>
    cases hb : err.isAlreadyExists
    case false => simp [GreetingOperator.createService, h, hb]
    case true =>
      cases h2 : (c.updateService o.namespaceName o.serviceResource
          (c.createService o.namespaceName o.serviceResource s).2).1 <;>
        simp [GreetingOperator.createService, h, hb, h2]
  | ok u =>
    simp [GreetingOperator.createService, h]

/-- C7: createNamespace issues exactly the one create call and no
update call; it succeeds when the client create succeeds or reports
already-exists, and returns the wrapped error on any other failure. -/
theorem createNamespace_idempotent_no_update {σ : Type} (o : GreetingOperator)
    (c : KClient σ) (s : σ) :
    (o.createNamespace c s).2.2
      = [APICall.createNamespaceCall o.namespaceResource] ∧
    (∀ call ∈ (o.createNamespace c s).2.2, call.isUpdateCall = false) ∧
    ((c.createNamespace o.namespaceResource s).1 = Except.ok () →
      (o.createNamespace c s).1 = Except.ok ()) ∧
    ((c.createNamespace o.namespaceResource s).1
        = Except.error KError.alreadyExists →
      (o.createNamespace c s).1 = Except.ok ()) ∧
    (∀ m : String,
      (c.createNamespace o.namespaceResource s).1
          = Except.error (KError.other m) →
      (o.createNamespace c s).1
          = Except.error ("create namespace: " ++ m)) := by
  cases h : (c.createNamespace o.namespaceResource s).1 with
  | error err =>
    cases err <;>
      simp [GreetingOperator.createNamespace, h, KError.isAlreadyExists,
        KError.msg, APICall.isUpdateCall]
  | ok u =>
    simp [GreetingOperator.createNamespace, h, APICall.isUpdateCall]

/-- Witness for C7: against the scenario cluster, which already holds
the default namespace, the client create reports already-exists and
createNamespace still succeeds. -/
theorem createNamespace_idempotent_no_update_witness :
    (clusterClient.createNamespace opScenario.namespaceResource
        scenarioCluster).1 = Except.error KError.alreadyExists ∧
    (opScenario.createNamespace clusterClient scenarioCluster).1
      = Except.ok () :=
  ⟨rfl,
   (createNamespace_idempotent_no_update opScenario clusterClient
       scenarioCluster).2.2.2.1 rfl⟩

/-- Helper: createNamespace issues exactly the one namespace create
call, whatever the client answers. -/
theorem createNamespace_trace_eq {σ : Type} (o : GreetingOperator)
    (c : KClient σ) (s : σ) :
    (o.createNamespace c s).2.2
      = [APICall.createNamespaceCall o.namespaceResource] := by
  cases h : (c.createNamespace o.namespaceResource s).1 with
  | error err =>
    cases hb : err.isAlreadyExists <;>
      simp [GreetingOperator.createNamespace, h, hb]
  | ok u => simp [GreetingOperator.createNamespace, h]

/-- Helper: the calls createDeployment issues are the create call alone
or the create call followed by the update call. -/
theorem createDeployment_trace_cases {σ : Type} (o : GreetingOperator)
    (c : KClient σ) (s : σ) :
    (o.createDeployment c s).2.2
        = [APICall.createDeploymentCall o.namespaceName o.greetingDeployment] ∨
    (o.createDeployment c s).2.2
        = [APICall.createDeploymentCall o.namespaceName o.greetingDeployment,
           APICall.updateDeploymentCall o.namespaceName o.greetingDeployment] := by
  cases h : (c.createDeployment o.namespaceName o.greetingDeployment s).1 with
  | error err =>
    cases hb : err.isAlreadyExists
    case false => left; simp [GreetingOperator.createDeployment, h, hb]
    case true =>
      cases h2 : (c.updateDeployment o.namespaceName o.greetingDeployment
          (c.createDeployment o.namespaceName o.greetingDeployment s).2).1 <;>
        · right; simp [GreetingOperator.createDeployment, h, hb, h2]
  | ok u => left; simp [GreetingOperator.createDeployment, h]

/-- C3: Start opens with the namespace create call, and short-circuits:
when the namespace step fails its error is returned and no deployment
or service call appears in the trace, and when the namespace step
succeeds but the deployment step fails, that error is returned and no
service call appears in the trace. -/
theorem Start_order_short_circuit {σ : Type} (o : GreetingOperator)
    (c : KClient σ) (s : σ) :
    (o.Start c s).2.2.head?
      = some (APICall.createNamespaceCall o.namespaceResource) ∧
    (∀ e : String, (o.createNamespace c s).1 = Except.error e →
      (o.Start c s).1 = Except.error e ∧
      ∀ call ∈ (o.Start c s).2.2,
        call.isDeploymentCall = false ∧ call.isServiceCall = false) ∧
    (∀ e : String, (o.createNamespace c s).1 = Except.ok () →
      (o.createDeployment c (o.createNamespace c s).2.1).1 = Except.error e →
      (o.Start c s).1 = Except.error e ∧
      ∀ call ∈ (o.Start c s).2.2, call.isServiceCall = false) := by
  refine ⟨?_, ?_, ?_⟩
  · cases h1 : (o.createNamespace c s).1 with
    | error e => simp [GreetingOperator.Start, h1, createNamespace_trace_eq]
    | ok u =>
      cases h2 : (o.createDeployment c (o.createNamespace c s).2.1).1 <;>
        simp [GreetingOperator.Start, h1, h2, createNamespace_trace_eq]
  · intro e h1
    simp [GreetingOperator.Start, h1, createNamespace_trace_eq,
      APICall.isDeploymentCall, APICall.isServiceCall]
  · intro e h1 h2
    rcases createDeployment_trace_cases o c (o.createNamespace c s).2.1
      with ht | ht <;>
      simp [GreetingOperator.Start, h1, h2, ht, createNamespace_trace_eq,
        APICall.isServiceCall]

/-- Witness for C3: with the mock client whose namespace create fails
fatally, Start returns that wrapped error. -/
theorem Start_order_short_circuit_witness :
    (opScenario.createNamespace mockNamespaceFailClient ()).1
        = Except.error ("create namespace: boom") ∧
    (opScenario.Start mockNamespaceFailClient ()).1
        = Except.error ("create namespace: boom") :=
  ⟨rfl,
   ((Start_order_short_circuit opScenario mockNamespaceFailClient ()).2.1
       ("create namespace: boom") rfl).1⟩

/-- C4: running the full provisioning sequence twice with the same
configuration, first against an empty cluster and then against the
cluster the first run produced, succeeds both times and leaves the
cluster in exactly the state the first run produced. -/
theorem Start_idempotent (o : GreetingOperator) :
    (o.Start clusterClient Cluster.empty).1 = Except.ok () ∧
    (o.Start clusterClient (o.Start clusterClient Cluster.empty).2.1).1
      = Except.ok () ∧
    (o.Start clusterClient (o.Start clusterClient Cluster.empty).2.1).2.1
      = (o.Start clusterClient Cluster.empty).2.1 := by
  simp [GreetingOperator.Start, GreetingOperator.createNamespace,
    GreetingOperator.createDeployment, GreetingOperator.createService,
    clusterClient, Cluster.empty, storeReplace, KError.isAlreadyExists,
    GreetingOperator.namespaceResource, List.lookup]
